import Mathlib

/-!
Verification of the `fintrack_desktop.py` convenience launcher
(repository Chijioke-Mekeachi/finia).

The launcher is a straight-line module:
  1. `_repo_root()` returns `Path(__file__).resolve().parents[1]`;
  2. `sys.path.insert(0, str(_repo_root()))`;
  3. `from desktop.fintrack_desktop.app import main`;
  4. `if __name__ == "__main__": raise SystemExit(main())`.

We embed POSIX absolute paths as lists of components, `sys.path` as a
list of strings, and the module-level execution as a function of an
input record carrying the launcher's resolved file location, the
initial `sys.path`, the outcome of the import (and, if imported, of
the call to `main()`), and whether the module runs as the main script.
The host interpreter's conversion of a top-level `SystemExit` or an
uncaught exception into a process exit status is embedded separately,
following the documented CPython semantics.
-/

/-- A POSIX absolute path, as its list of components below the
filesystem root (so `[]` is `/` itself). -/
abbrev PyPath := List String

/-- Embedding of `pathlib.PurePath.parent`: drop the last component.
(On the filesystem root it is the identity, matching `pathlib`, since
`List.dropLast [] = []`.) -/
def pathParent (p : PyPath) : PyPath := p.dropLast

/-- Embedding of `pathlib.PurePath.parents[i]`: the `(i+1)`-fold
ancestor, i.e. `parent` iterated `i + 1` times. -/
def pathParentsGet (p : PyPath) (i : Nat) : PyPath :=
  pathParent^[i + 1] p

/-- Embedding of `str()` on a `pathlib` absolute path: render the
components separated by slashes below the root. -/
def pathToStr (p : PyPath) : String :=
  "/" ++ String.intercalate "/" p

/-- Embedding of `_repo_root` (src/fintrack_desktop.py, lines 14–15):
`Path(__file__).resolve().parents[1]`, applied to the already
absolute, symlink-resolved location of the launcher file. -/
def _repo_root (resolvedFile : PyPath) : PyPath :=
  pathParentsGet resolvedFile 1

/-- A Python value as far as the launcher's exit semantics care:
`None`, an `int`, or anything else (carried as its display text). -/
inductive PyValue
  | vNone
  | vInt (n : Int)
  | vOther (repr : String)
deriving DecidableEq, Repr

/-- How the launcher module's top-level execution ends. -/
inductive Termination
  /-- The module body finished; the process keeps running
  (the launcher was imported, not run as the main script). -/
  | continues
  /-- `raise SystemExit(v)` reached the top level. -/
  | sysExit (v : PyValue)
  /-- An exception other than `SystemExit` reached the top level
  unchanged; `e` identifies the original exception. -/
  | uncaught (e : String)
deriving DecidableEq, Repr

/-- Documented CPython conversion of a `SystemExit` argument into a
process exit status (Python library reference, `sys.exit`): `None`
maps to `0`, an `int` passes through, and any other object is printed
to stderr and yields exit status `1`. -/
def systemExitStatus : PyValue → Int
  | .vNone => 0
  | .vInt n => n
  | .vOther _ => 1

/-- Exit status CPython uses when an uncaught exception (other than
`SystemExit`) terminates the interpreter. -/
def uncaughtExcStatus : Int := 1

/-- The process exit status produced by a termination: `none` when the
process keeps running, otherwise the status the interpreter exits
with. -/
def finalStatus : Termination → Option Int
  | .continues => none
  | .sysExit v => some (systemExitStatus v)
  | .uncaught _ => some uncaughtExcStatus

/-- Everything the launcher's execution depends on: its own absolute,
symlink-resolved file location; the `sys.path` in force before the
module body runs; the outcome of the statement
`from desktop.fintrack_desktop.app import main` (outer `Except`:
importing itself may raise) together
with, on success, the outcome of calling `main()` (inner `Except`:
the call may raise, or return a value); and whether `__name__` equals
`"__main__"`. -/
structure LaunchInput where
  file : PyPath
  initPath : List String
  importResult : Except String (Except String PyValue)
  runAsMain : Bool

/-- Observable result of executing the launcher module body:
the final `sys.path`, whether the external entry point was
successfully imported, and how execution terminated. -/
structure RunResult where
  finalPath : List String
  mainImported : Bool
  term : Termination
deriving DecidableEq, Repr

/-- Embedding of the module-level execution of
src/fintrack_desktop.py: compute the repository root, insert its
string form at the front of `sys.path`, import `main` (an import
failure propagates uncaught), and — only when run as the main
script — call `main()` and raise `SystemExit` on its result; an
exception raised by `main()` propagates uncaught and unchanged. -/
def runLauncher (inp : LaunchInput) : RunResult :=
  let root := pathToStr (_repo_root inp.file)
  let newPath := List.insertIdx 0 root inp.initPath
  match inp.importResult with
  | .error e => ⟨newPath, false, .uncaught e⟩
  | .ok callMain =>
    if inp.runAsMain then
      match callMain with
      | .error e => ⟨newPath, true, .uncaught e⟩
      | .ok v => ⟨newPath, true, .sysExit v⟩
    else
      ⟨newPath, true, .continues⟩

/-- One application of the launcher's path setup (lines 14–18 of the
source): prepend the string form of the freshly recomputed repository
root to the current `sys.path`. -/
def pathSetup (file : PyPath) (p : List String) : List String :=
  List.insertIdx 0 (pathToStr (_repo_root file)) p

/-- The launcher's path setup invoked `n` times in sequence in the
same process, starting from `sys.path = p`. -/
def pathSetupIter (file : PyPath) (p : List String) : Nat → List String
  | 0 => p
  | n + 1 => pathSetup file (pathSetupIter file p n)

/- ------------------------------------------------------------------
Basic unfolding lemmas shared by the claim theorems.
------------------------------------------------------------------ -/

lemma pathSetup_eq_cons (file : PyPath) (p : List String) :
    pathSetup file p = pathToStr (_repo_root file) :: p := by
  simp [pathSetup, List.insertIdx]

lemma pathSetupIter_length (file : PyPath) (p : List String) (n : Nat) :
    (pathSetupIter file p n).length = p.length + n := by
  induction n with
  | zero => rfl
  | succ m ih =>
    rw [pathSetupIter, pathSetup_eq_cons, List.length_cons, ih]
    omega

lemma runLauncher_finalPath (inp : LaunchInput) :
    (runLauncher inp).finalPath =
      pathToStr (_repo_root inp.file) :: inp.initPath := by
  unfold runLauncher
  cases h : inp.importResult with
  | error e => simp [List.insertIdx]
  | ok r =>
    cases hb : inp.runAsMain <;> cases r <;> simp [List.insertIdx]

/- ------------------------------------------------------------------
Claim theorems.
------------------------------------------------------------------ -/

/-- C1: for every execution, the repository root computed by the
launcher equals the parent of the parent (the ancestor two levels up)
of the launcher's own absolute, symlink-resolved file location. -/
theorem repo_root_is_grandparent (resolvedFile : PyPath) :
    _repo_root resolvedFile = pathParent (pathParent resolvedFile) := by
  unfold _repo_root pathParentsGet
  simp [Function.iterate_succ_apply]

/-- C2: after the launcher runs, the computed repository root is
present in the module search path at the front position (index 0),
ahead of every previously existing entry. -/
theorem root_at_front_of_sysPath (inp : LaunchInput) :
    (runLauncher inp).finalPath[0]? =
      some (pathToStr (_repo_root inp.file)) := by
  rw [runLauncher_finalPath]
  simp

/-- C3: for every integer `N`, if the delegated entry point `main()`
returns `N`, the launcher's process exit status equals `N`. -/
theorem exit_status_of_int_return (n : Int) (file : PyPath)
    (initPath : List String) :
    finalStatus (runLauncher
      ⟨file, initPath, .ok (.ok (.vInt n)), true⟩).term = some n := by
  rfl

/-- C4: if the delegated entry point `main()` returns `None` (no
value), the launcher's process exit status is `0`. -/
theorem exit_status_of_none_return (file : PyPath)
    (initPath : List String) :
    finalStatus (runLauncher
      ⟨file, initPath, .ok (.ok .vNone), true⟩).term = some 0 := by
  rfl

/-- C5 counterexample: when `main()` returns the non-integer,
non-`None` value `"x"`, the process exit status is not `0` — CPython
prints the object to stderr and exits with status `1`. -/
theorem nonint_return_status_not_zero :
    ¬ (finalStatus (runLauncher
        ⟨["repo", "frontend", "fintrack_desktop.py"], [],
          .ok (.ok (.vOther "x")), true⟩).term = some 0) := by
  decide

/-- C5 amended: if the delegated entry point `main()` returns a
non-integer, non-`None` value, the host runtime treats the return as
a failure and the process exit status is `1`. -/
theorem nonint_return_status_is_one (s : String) (file : PyPath)
    (initPath : List String) :
    finalStatus (runLauncher
      ⟨file, initPath, .ok (.ok (.vOther s)), true⟩).term = some 1 := by
  rfl

/-- C6: if the delegated entry point `main()` raises an exception,
the launcher performs no recovery: the exception reaches the top
level unchanged (no wrapping, logging, or suppression), and the
process terminates with a non-zero exit status. -/
theorem delegated_failure_propagates (e : String) (file : PyPath)
    (initPath : List String) :
    (runLauncher ⟨file, initPath, .ok (.error e), true⟩).term =
        .uncaught e ∧
      ∃ s, finalStatus (runLauncher
          ⟨file, initPath, .ok (.error e), true⟩).term = some s ∧
        s ≠ 0 := by
  refine ⟨rfl, 1, rfl, one_ne_zero⟩

/-- C7: if the external application package or its entry point `main`
cannot be located or imported, the launcher fails immediately:
the failed import reaches the top level uncaught — with no retry,
fallback, or recovery path, whether or not the module runs as the
main script — and the process terminates with a non-zero exit
status. -/
theorem import_failure_is_fatal (e : String) (file : PyPath)
    (initPath : List String) (runAsMain : Bool) :
    (runLauncher ⟨file, initPath, .error e, runAsMain⟩).term =
        .uncaught e ∧
      (runLauncher ⟨file, initPath, .error e, runAsMain⟩).mainImported
          = false ∧
      ∃ s, finalStatus (runLauncher
          ⟨file, initPath, .error e, runAsMain⟩).term = some s ∧
        s ≠ 0 := by
  refine ⟨rfl, rfl, 1, rfl, one_ne_zero⟩

/-- C8: the launcher's only mutation of the process-wide module
search path is prepending exactly one entry, the computed repository
root: the final search path is exactly that entry consed onto the
initial search path, so every previously existing entry remains
present, unmodified, and in its original relative order. -/
theorem sysPath_mutation_is_single_prepend (inp : LaunchInput) :
    (runLauncher inp).finalPath =
      pathToStr (_repo_root inp.file) :: inp.initPath := by
  exact runLauncher_finalPath inp

/-- C9: invoking the launcher's path setup `n ≥ 1` times in sequence
in the same process recomputes the same root path each time and
re-inserts it at the front without deduplication: after every
invocation the root sits at the front, and the search path has grown
by exactly one entry per invocation. -/
theorem repeated_setup_keeps_root_at_front (file : PyPath)
    (p : List String) (n : Nat) (h : 1 ≤ n) :
    (pathSetupIter file p n)[0]? =
        some (pathToStr (_repo_root file)) ∧
      (pathSetupIter file p n).length = p.length + n := by
  cases n with
  | zero => exact absurd h (by decide)
  | succ m =>
    constructor
    · rw [pathSetupIter, pathSetup_eq_cons]
      simp
    · exact pathSetupIter_length file p (m + 1)

/-- C9 witness: two consecutive invocations starting from a one-entry
search path leave the root at the front and the length at three. -/
theorem repeated_setup_keeps_root_at_front_witness :
    (1 : Nat) ≤ 2 ∧
      ((pathSetupIter ["repo", "frontend", "fintrack_desktop.py"]
            ["old"] 2)[0]? =
          some (pathToStr (_repo_root
            ["repo", "frontend", "fintrack_desktop.py"])) ∧
        (pathSetupIter ["repo", "frontend", "fintrack_desktop.py"]
            ["old"] 2).length = ["old"].length + 2) :=
  ⟨by decide,
    repeated_setup_keeps_root_at_front
      ["repo", "frontend", "fintrack_desktop.py"] ["old"] 2
      (by decide)⟩

/-- C10: importing the launcher module without executing it as the
main script still prepends the repository root to the module search
path and imports the external entry point, but does not invoke
`main()` and does not raise `SystemExit`: the module body simply
finishes and the process keeps running. -/
theorem import_only_has_side_effects_no_exit (file : PyPath)
    (initPath : List String) (callMain : Except String PyValue) :
    runLauncher ⟨file, initPath, .ok callMain, false⟩ =
      ⟨pathToStr (_repo_root file) :: initPath, true, .continues⟩ := by
  unfold runLauncher
  simp [List.insertIdx]
